import Mathlib

/-!
Verification of the line_art generative-art program.

The development embeds the Python sources shallowly:
Python ints become Lean integers, Python float arithmetic is modelled by exact
rationals (or reals where the trigonometric functions of the math module
appear), the Python int conversion becomes truncation toward zero, and the
Python floor-division operator becomes Int.fdiv.  The fallible parts of the
renderer are modelled with Except so that the runtime faults the code can hit
(index error on an empty point list, zero division in the color-factor
computation) are explicit values.
-/

namespace LineArt

/-- A 2D integer point, from the Point NamedTuple of the sources. -/
structure Point where
  x : ℤ
  y : ℤ
deriving DecidableEq, Repr

/-- An RGB color with integer channels, from the tuple of three ints used by
the sources. -/
structure Color where
  r : ℤ
  g : ℤ
  b : ℤ
deriving DecidableEq, Repr

/-- The Python int conversion applied to a rational: truncation toward zero. -/
def ratTrunc (q : ℚ) : ℤ :=
  if 0 ≤ q then ⌊q⌋ else ⌈q⌉

theorem ratTrunc_intCast (n : ℤ) : ratTrunc (n : ℚ) = n := by
  unfold ratTrunc
  split <;> simp

theorem ratTrunc_eq_floor {q : ℚ} (h : 0 ≤ q) : ratTrunc q = ⌊q⌋ :=
  if_pos h

/-- From interpolate in generate_art.py and src/colors/generator.py: per
channel, the value start * (1 - factor) + end * factor, truncated to an
integer. -/
def interpolate (start_color end_color : Color) (factor : ℚ) : Color :=
  let recip : ℚ := 1 - factor
  ⟨ratTrunc (start_color.r * recip + end_color.r * factor),
   ratTrunc (start_color.g * recip + end_color.g * factor),
   ratTrunc (start_color.b * recip + end_color.b * factor)⟩

/-- Claim C4: interpolating a color with itself is the identity, for every
factor, including factors outside the unit interval. -/
theorem interpolate_self (c : Color) (factor : ℚ) : interpolate c c factor = c := by
  obtain ⟨r, g, b⟩ := c
  unfold interpolate
  simp only [Color.mk.injEq]
  refine ⟨?_, ?_, ?_⟩ <;>
    · rw [show ∀ v : ℤ, (v : ℚ) * (1 - factor) + v * factor = ((v : ℤ) : ℚ) by
        intro v; ring]
      exact ratTrunc_intCast _

/-- Claim C7: interpolate is exact at factor 0 and factor 1, and for any
factor it is the truncation of the unclamped linear form
start + (end - start) * factor; at factor 2 it produces channel values above
255 and below 0, so no clamping to the byte range happens. -/
theorem interpolate_endpoints_extrapolation :
    (∀ a b : Color, interpolate a b 0 = a) ∧
    (∀ a b : Color, interpolate a b 1 = b) ∧
    (∀ (a b : Color) (factor : ℚ),
      interpolate a b factor =
        ⟨ratTrunc (a.r + (b.r - a.r) * factor),
         ratTrunc (a.g + (b.g - a.g) * factor),
         ratTrunc (a.b + (b.b - a.b) * factor)⟩) ∧
    interpolate ⟨0, 0, 0⟩ ⟨200, 200, 200⟩ 2 = ⟨400, 400, 400⟩ ∧
    interpolate ⟨200, 200, 200⟩ ⟨0, 0, 0⟩ 2 = ⟨-200, -200, -200⟩ := by
  refine ⟨?_, ?_, ?_, ?_, ?_⟩
  · intro a b
    obtain ⟨ar, ag, ab⟩ := a
    simp [interpolate, ratTrunc_intCast]
  · intro a b
    obtain ⟨br, bg, bb⟩ := b
    simp [interpolate, ratTrunc_intCast]
  · intro a b factor
    unfold interpolate
    simp only [Color.mk.injEq]
    refine ⟨?_, ?_, ?_⟩ <;> · congr 1; ring
  · norm_num [interpolate]
    rw [show (400 : ℚ) = ((400 : ℤ) : ℚ) by norm_num, ratTrunc_intCast]
  · norm_num [interpolate]
    rw [show (-200 : ℚ) = ((-200 : ℤ) : ℚ) by norm_num, ratTrunc_intCast]

/-- The uniform random point generator, holding the derived coordinate
bounds. -/
structure RandPointGenerator where
  minimum : ℤ
  maximum : ℤ
deriving DecidableEq, Repr

/-- From RandPointGenerator in src/points/generator.py: minimum is the Python
int conversion of size * scale_factor * margin, and maximum is the int
conversion of size * scale_factor - minimum. -/
def RandPointGenerator.ofConfig (size scale_factor : ℕ) (margin : ℚ) :
    RandPointGenerator :=
  let minimum := ratTrunc ((size : ℚ) * (scale_factor : ℚ) * margin)
  ⟨minimum, ratTrunc ((size : ℚ) * (scale_factor : ℚ) - (minimum : ℚ))⟩

/-- From the main block of generate_art.py: the script builds its
RandPointGenerator from minimum equal to int(size * margin) and maximum equal
to size - minimum, with size the unscaled target size. -/
def mainScriptRandGen (size : ℕ) (margin : ℚ) : RandPointGenerator :=
  let minimum := ratTrunc ((size : ℚ) * margin)
  ⟨minimum, (size : ℤ) - minimum⟩

/-- Modelled from the spec words, for refinement comparison only: the derived
bounds for the uniform generator as the spec states them, with minimum the
rounding of size * scaleFactor * margin to the nearest integer. -/
def specDerivedBounds (size scale_factor : ℕ) (margin : ℚ) : ℤ × ℤ :=
  (round ((size : ℚ) * (scale_factor : ℚ) * margin),
   (size : ℤ) * (scale_factor : ℤ) - round ((size : ℚ) * (scale_factor : ℚ) * margin))

/-- Claim C3, counterexample: at size 10, scale factor 1 and margin 17/100
the code truncates 1.7 to a minimum of 1 while the formula of the spec rounds
it to 2, so the bounds are not derived by rounding. -/
theorem randGen_bounds_round_cex :
    (RandPointGenerator.ofConfig 10 1 (17/100)).minimum ≠
      (specDerivedBounds 10 1 (17/100)).1 := by
  have h1 : (RandPointGenerator.ofConfig 10 1 (17/100)).minimum = 1 := by
    show ratTrunc ((10 : ℚ) * (1 : ℚ) * (17/100)) = 1
    rw [ratTrunc_eq_floor (by norm_num)]
    norm_num [Int.floor_eq_iff]
  have h2 : (specDerivedBounds 10 1 (17/100)).1 = 2 := by
    show round ((10 : ℚ) * (1 : ℚ) * (17/100)) = 2
    norm_num [round_eq, Int.floor_eq_iff]
  rw [h1, h2]
  decide

/-- Claim C3, amended: for a nonnegative margin the bounds of the package
generator are minimum equal to the floor (truncation) of
size * scaleFactor * margin and maximum equal to size * scaleFactor minus
that minimum, both in the scaled coordinate space; the top level script of
generate_art.py instead hands its generator the unscaled bounds
int(size * margin) and size minus that value. -/
theorem randGen_bounds_trunc (size scale_factor : ℕ) (margin : ℚ)
    (h : 0 ≤ margin) :
    (RandPointGenerator.ofConfig size scale_factor margin).minimum =
      ⌊(size : ℚ) * (scale_factor : ℚ) * margin⌋ ∧
    (RandPointGenerator.ofConfig size scale_factor margin).maximum =
      (size : ℤ) * (scale_factor : ℤ) - ⌊(size : ℚ) * (scale_factor : ℚ) * margin⌋ ∧
    (mainScriptRandGen size margin).minimum = ⌊(size : ℚ) * margin⌋ ∧
    (mainScriptRandGen size margin).maximum = (size : ℤ) - ⌊(size : ℚ) * margin⌋ := by
  have hnn : 0 ≤ (size : ℚ) * (scale_factor : ℚ) * margin := by positivity
  refine ⟨ratTrunc_eq_floor hnn, ?_, ratTrunc_eq_floor (by positivity), ?_⟩
  · show ratTrunc ((size : ℚ) * (scale_factor : ℚ) -
      ((ratTrunc ((size : ℚ) * (scale_factor : ℚ) * margin) : ℤ) : ℚ)) = _
    rw [ratTrunc_eq_floor hnn]
    rw [show (size : ℚ) * (scale_factor : ℚ) -
        ((⌊(size : ℚ) * (scale_factor : ℚ) * margin⌋ : ℤ) : ℚ) =
        (((size : ℤ) * (scale_factor : ℤ) -
          ⌊(size : ℚ) * (scale_factor : ℚ) * margin⌋ : ℤ) : ℚ) by push_cast; ring]
    exact ratTrunc_intCast _
  · show (size : ℤ) - ratTrunc ((size : ℚ) * margin) = _
    rw [ratTrunc_eq_floor (by positivity)]

/-- Witness for the amended claim C3 at the default configuration of the
script: size 720, scale factor 2, margin 1/10. -/
theorem randGen_bounds_trunc_witness :
    (RandPointGenerator.ofConfig 720 2 (1/10)).minimum =
      ⌊(720 : ℚ) * (2 : ℚ) * (1/10)⌋ ∧
    (RandPointGenerator.ofConfig 720 2 (1/10)).maximum =
      (720 : ℤ) * (2 : ℤ) - ⌊(720 : ℚ) * (2 : ℚ) * (1/10)⌋ ∧
    (mainScriptRandGen 720 (1/10)).minimum = ⌊(720 : ℚ) * (1/10)⌋ ∧
    (mainScriptRandGen 720 (1/10)).maximum = (720 : ℤ) - ⌊(720 : ℚ) * (1/10)⌋ :=
  randGen_bounds_trunc 720 2 (1/10) (by norm_num)

/-- The bounding box state of the loop in generate_art: running minima and
maxima of the coordinates. -/
structure BBox where
  min_x : ℤ
  max_x : ℤ
  min_y : ℤ
  max_y : ℤ
deriving DecidableEq, Repr

/-- One iteration of the bounding box loop of generate_art: each bound is
replaced when the current point lies strictly beyond it. -/
def bboxUpd (b : BBox) (p : Point) : BBox :=
  ⟨if p.x < b.min_x then p.x else b.min_x,
   if p.x > b.max_x then p.x else b.max_x,
   if p.y < b.min_y then p.y else b.min_y,
   if p.y > b.max_y then p.y else b.max_y⟩

/-- The bounding box loop of generate_art: the state starts from the
coordinates of the first point of the list and is folded over the whole
list. -/
def bbox (p0 : Point) (pts : List Point) : BBox :=
  pts.foldl bboxUpd ⟨p0.x, p0.x, p0.y, p0.y⟩

/-- The centering step of generate_art: delta_x is min_x - (size - max_x),
delta_y is min_y - (size - max_y), and every point is shifted by the floor
division of each delta by two (the Python floor-division operator). -/
def centeredPts (size : ℤ) (p0 : Point) (pts : List Point) : List Point :=
  let b := bbox p0 pts
  let delta_x := b.min_x - (size - b.max_x)
  let delta_y := b.min_y - (size - b.max_y)
  pts.map fun p => ⟨p.x - delta_x.fdiv 2, p.y - delta_y.fdiv 2⟩

/-- One line-drawing command issued by the loop of generate_art: the two
endpoints, the fill color and the line width passed to the draw call. -/
structure Seg where
  p1 : Point
  p2 : Point
  line_color : Color
  width : ℤ
deriving DecidableEq, Repr

/-- The runtime faults the renderer can raise, plus the configuration error
the spec asks for (which no code path produces). -/
inductive RenderError where
  | configError
  | indexError
  | divByZero
deriving DecidableEq, Repr

/-- The drawing loop of generate_art, with fuel equal to the number of
remaining iterations: at index i the line is drawn with the current
thickness, the second endpoint wraps to the first point at the last index,
the color factor is i / n, and the thickness then grows by scale_factor while
the color factor is below one half and shrinks by scale_factor once it is at
least one half. -/
def drawSegs (scale_factor : ℤ) (n : ℕ) (pts : List Point)
    (start_color end_color : Color) : ℕ → ℤ → ℕ → List Seg
  | _, _, 0 => []
  | i, thickness, fuel + 1 =>
    { p1 := pts.getD i ⟨0, 0⟩
      p2 := pts.getD (if i = n then 0 else i + 1) ⟨0, 0⟩
      line_color := interpolate start_color end_color ((i : ℚ) / (n : ℚ))
      width := thickness } ::
    drawSegs scale_factor n pts start_color end_color (i + 1)
      (thickness + if ((i : ℚ) / (n : ℚ)) < 1/2 then scale_factor else -scale_factor)
      fuel

/-- The thickness values taken by the loop variable of generate_art, one per
remaining iteration. -/
def thickTrace (scale_factor : ℤ) (n : ℕ) : ℕ → ℤ → ℕ → List ℤ
  | _, _, 0 => []
  | i, thickness, fuel + 1 =>
    thickness ::
    thickTrace scale_factor n (i + 1)
      (thickness + if ((i : ℚ) / (n : ℚ)) < 1/2 then scale_factor else -scale_factor)
      fuel

/-- The rendering pipeline of generate_art, modelled up to the list of
drawing commands: the size is target_size times scale_factor, an empty point
list faults with an index error at the bounding box step, the points are then
centered, and a single point faults with a zero division in the color factor
(the denominator n is the point count minus one); otherwise the loop runs
with the thickness starting at scale_factor. -/
def renderArt (target_size scale_factor : ℕ) (start_color end_color : Color)
    (points : List Point) : Except RenderError (List Seg) :=
  let size : ℤ := (target_size : ℤ) * (scale_factor : ℤ)
  match points with
  | [] => .error .indexError
  | p0 :: _ =>
    let pts := centeredPts size p0 points
    let n := points.length - 1
    if n = 0 then .error .divByZero
    else .ok (drawSegs (scale_factor : ℤ) n pts start_color end_color 0
      (scale_factor : ℤ) points.length)

theorem drawSegs_map_width (scale_factor : ℤ) (n : ℕ) (pts : List Point)
    (start_color end_color : Color) :
    ∀ (fuel i : ℕ) (t : ℤ),
      (drawSegs scale_factor n pts start_color end_color i t fuel).map Seg.width =
        thickTrace scale_factor n i t fuel := by
  intro fuel
  induction fuel with
  | zero => intro i t; rfl
  | succ m ih =>
    intro i t
    simp only [drawSegs, thickTrace, List.map_cons, ih]

theorem thickTrace_ten_two :
    thickTrace 2 9 0 2 10 = [2, 4, 6, 8, 10, 12, 10, 8, 6, 4] := by
  norm_num [thickTrace]

/-- Claim C1, counterexample: at ten points and scale factor 2 the widths
actually used are 2, 4, 6, 8, 10, 12, 10, 8, 6, 4 and not the sequence
2, 4, 6, 8, 10, 8, 6, 4, 2, 0 stated by the spec, because the color factor
i / 9 stays below one half up to and including i equal to 4, so the thickness
is incremented five times before it starts shrinking. -/
theorem renderArt_thickness_ramp_cex :
    (renderArt 720 2 ⟨255, 0, 0⟩ ⟨0, 0, 255⟩
        [⟨0, 0⟩, ⟨1, 1⟩, ⟨2, 2⟩, ⟨3, 3⟩, ⟨4, 4⟩,
         ⟨5, 5⟩, ⟨6, 6⟩, ⟨7, 7⟩, ⟨8, 8⟩, ⟨9, 9⟩]).map
      (fun segs => segs.map Seg.width) ≠ .ok [2, 4, 6, 8, 10, 8, 6, 4, 2, 0] := by
  have hv : (renderArt 720 2 ⟨255, 0, 0⟩ ⟨0, 0, 255⟩
      [⟨0, 0⟩, ⟨1, 1⟩, ⟨2, 2⟩, ⟨3, 3⟩, ⟨4, 4⟩,
       ⟨5, 5⟩, ⟨6, 6⟩, ⟨7, 7⟩, ⟨8, 8⟩, ⟨9, 9⟩]).map
      (fun segs => segs.map Seg.width) = .ok [2, 4, 6, 8, 10, 12, 10, 8, 6, 4] := by
    simp only [renderArt, List.length_cons, Except.map]
    norm_num [drawSegs_map_width]
    exact thickTrace_ten_two
  rw [hv]
  intro hcon
  simp only [Except.ok.injEq] at hcon
  exact absurd hcon (by decide)

/-- Claim C1, amended: for every render with ten points and scale factor 2
the sequence of widths used by the drawing loop is
2, 4, 6, 8, 10, 12, 10, 8, 6, 4: the thickness starts at the scale factor,
grows by it after each segment whose color factor is below one half, shrinks
by it after each segment whose color factor is at least one half, and so
peaks at 12 on the sixth segment and ends at 4. -/
theorem renderArt_thickness_ramp (target_size : ℕ) (start_color end_color : Color)
    (points : List Point) (h : points.length = 10) :
    (renderArt target_size 2 start_color end_color points).map
      (fun segs => segs.map Seg.width) = .ok [2, 4, 6, 8, 10, 12, 10, 8, 6, 4] := by
  match points with
  | p0 :: rest =>
    have hl : rest.length = 9 := by simpa using h
    simp only [renderArt, List.length_cons, hl, Except.map]
    norm_num [drawSegs_map_width]
    exact thickTrace_ten_two

/-- Witness for the amended claim C1 on a concrete ten point render. -/
theorem renderArt_thickness_ramp_witness :
    (renderArt 300 2 ⟨10, 20, 30⟩ ⟨200, 100, 0⟩
        [⟨0, 0⟩, ⟨10, 10⟩, ⟨20, 20⟩, ⟨30, 30⟩, ⟨40, 40⟩,
         ⟨50, 50⟩, ⟨60, 60⟩, ⟨70, 70⟩, ⟨80, 80⟩, ⟨90, 90⟩]).map
      (fun segs => segs.map Seg.width) = .ok [2, 4, 6, 8, 10, 12, 10, 8, 6, 4] :=
  renderArt_thickness_ramp 300 ⟨10, 20, 30⟩ ⟨200, 100, 0⟩ _ (by rfl)

/-- Claim C2: with a single point (numLines equal to 1) the renderer reaches
the color factor computation and faults with the zero division, which is not
the configuration error the spec requires before rendering begins; no code
path of the sources performs configuration validation. -/
theorem renderArt_numLines_one_not_configError :
    renderArt 720 2 ⟨255, 0, 0⟩ ⟨0, 255, 0⟩ [⟨100, 100⟩] = .error .divByZero ∧
    RenderError.divByZero ≠ RenderError.configError :=
  ⟨by simp [renderArt], by decide⟩

/-- Claim C5, counterexample: with zero points the renderer faults with an
index error while reading the first point for the bounding box, before the
color factor computation is ever reached, so it does not fail with a zero
division there. -/
theorem renderArt_zero_points_cex :
    renderArt 720 2 ⟨1, 2, 3⟩ ⟨4, 5, 6⟩ [] = .error .indexError ∧
    RenderError.indexError ≠ RenderError.divByZero :=
  ⟨by simp [renderArt], by decide⟩

/-- Claim C5, amended: a generator supplying exactly one point makes the
renderer fail with the zero division in the color factor (denominator
numLines minus one), while a generator supplying zero points makes it fail
earlier, with an index error on the first point access of the bounding box
computation. -/
theorem renderArt_few_points_errors (target_size scale_factor : ℕ)
    (start_color end_color : Color) (points : List Point) :
    (points.length = 1 →
      renderArt target_size scale_factor start_color end_color points =
        .error .divByZero) ∧
    (points.length = 0 →
      renderArt target_size scale_factor start_color end_color points =
        .error .indexError) := by
  constructor
  · intro h
    match points with
    | [p] => simp [renderArt]
  · intro h
    match points with
    | [] => simp [renderArt]

/-- Witness for the amended claim C5 at a one point and a zero point list. -/
theorem renderArt_few_points_errors_witness :
    renderArt 100 1 ⟨0, 0, 0⟩ ⟨9, 9, 9⟩ [⟨7, 7⟩] = .error .divByZero ∧
    renderArt 100 1 ⟨0, 0, 0⟩ ⟨9, 9, 9⟩ [] = .error .indexError :=
  ⟨(renderArt_few_points_errors 100 1 ⟨0, 0, 0⟩ ⟨9, 9, 9⟩ [⟨7, 7⟩]).1 rfl,
   (renderArt_few_points_errors 100 1 ⟨0, 0, 0⟩ ⟨9, 9, 9⟩ []).2 rfl⟩

theorem bboxUpd_shift (c d : ℤ) (b : BBox) (p : Point) :
    bboxUpd ⟨b.min_x - c, b.max_x - c, b.min_y - d, b.max_y - d⟩
        ⟨p.x - c, p.y - d⟩ =
      ⟨(bboxUpd b p).min_x - c, (bboxUpd b p).max_x - c,
       (bboxUpd b p).min_y - d, (bboxUpd b p).max_y - d⟩ := by
  simp only [bboxUpd, BBox.mk.injEq]
  refine ⟨?_, ?_, ?_, ?_⟩ <;> split_ifs <;> omega

theorem bboxFold_shift (c d : ℤ) (pts : List Point) :
    ∀ b : BBox,
      (pts.map fun p => Point.mk (p.x - c) (p.y - d)).foldl bboxUpd
          ⟨b.min_x - c, b.max_x - c, b.min_y - d, b.max_y - d⟩ =
        ⟨(pts.foldl bboxUpd b).min_x - c, (pts.foldl bboxUpd b).max_x - c,
         (pts.foldl bboxUpd b).min_y - d, (pts.foldl bboxUpd b).max_y - d⟩ := by
  induction pts with
  | nil => intro b; rfl
  | cons p ps ih =>
    intro b
    simp only [List.map_cons, List.foldl_cons]
    rw [bboxUpd_shift]
    exact ih (bboxUpd b p)

/-- The bounding box of the centered point list, recomputed by the same loop
the renderer uses, starting from the shifted first point. -/
def centeredBBox (size : ℤ) (p0 : Point) (pts : List Point) : BBox :=
  bbox ⟨p0.x - ((bbox p0 pts).min_x - (size - (bbox p0 pts).max_x)).fdiv 2,
        p0.y - ((bbox p0 pts).min_y - (size - (bbox p0 pts).max_y)).fdiv 2⟩
    (centeredPts size p0 pts)

theorem centeredBBox_eq (size : ℤ) (p0 : Point) (pts : List Point) :
    centeredBBox size p0 pts =
      ⟨(bbox p0 pts).min_x - ((bbox p0 pts).min_x - (size - (bbox p0 pts).max_x)).fdiv 2,
       (bbox p0 pts).max_x - ((bbox p0 pts).min_x - (size - (bbox p0 pts).max_x)).fdiv 2,
       (bbox p0 pts).min_y - ((bbox p0 pts).min_y - (size - (bbox p0 pts).max_y)).fdiv 2,
       (bbox p0 pts).max_y - ((bbox p0 pts).min_y - (size - (bbox p0 pts).max_y)).fdiv 2⟩ := by
  unfold centeredBBox centeredPts bbox
  exact bboxFold_shift _ _ pts ⟨p0.x, p0.x, p0.y, p0.y⟩

/-- Claim C6: for every nonempty point list the centering step shifts by the
floor division of delta_x and delta_y by two, and afterwards the bounding box
of the shifted points is centered in the interval from 0 to size up to the
one pixel integer rounding (the sum of its two x bounds differs from size by
at most one, likewise in y); in the concrete instance of the spec, points
with bounds 10 and 100 in x and 20 and 80 in y on a canvas of size 200 are
shifted to the box from 55 to 145 in x and 70 to 130 in y, whose midpoints
coincide exactly with the canvas midpoint 100. -/
theorem centering_centers_bbox (size : ℤ) (p0 : Point) (rest : List Point) :
    0 ≤ (centeredBBox size p0 (p0 :: rest)).min_x +
        (centeredBBox size p0 (p0 :: rest)).max_x - size ∧
    (centeredBBox size p0 (p0 :: rest)).min_x +
        (centeredBBox size p0 (p0 :: rest)).max_x - size ≤ 1 ∧
    0 ≤ (centeredBBox size p0 (p0 :: rest)).min_y +
        (centeredBBox size p0 (p0 :: rest)).max_y - size ∧
    (centeredBBox size p0 (p0 :: rest)).min_y +
        (centeredBBox size p0 (p0 :: rest)).max_y - size ≤ 1 ∧
    centeredPts 200 ⟨10, 20⟩ [⟨10, 20⟩, ⟨100, 80⟩] = [⟨55, 70⟩, ⟨145, 130⟩] ∧
    (centeredBBox 200 ⟨10, 20⟩ [⟨10, 20⟩, ⟨100, 80⟩]).min_x +
      (centeredBBox 200 ⟨10, 20⟩ [⟨10, 20⟩, ⟨100, 80⟩]).max_x = 2 * 100 ∧
    (centeredBBox 200 ⟨10, 20⟩ [⟨10, 20⟩, ⟨100, 80⟩]).min_y +
      (centeredBBox 200 ⟨10, 20⟩ [⟨10, 20⟩, ⟨100, 80⟩]).max_y = 2 * 100 := by
  rw [centeredBBox_eq]
  generalize (bbox p0 (p0 :: rest)).min_x = m
  generalize (bbox p0 (p0 :: rest)).max_x = M
  generalize (bbox p0 (p0 :: rest)).min_y = my
  generalize (bbox p0 (p0 :: rest)).max_y = My
  rw [Int.fdiv_eq_ediv _ (by norm_num), Int.fdiv_eq_ediv _ (by norm_num)]
  dsimp only
  refine ⟨by omega, by omega, by omega, by omega, by decide, by decide, by decide⟩

/-- The state of the parametric love-curve generator: the stored bounds, the
current parameter t and the fixed step. The float fields of the Python class
are modelled by real numbers. -/
structure LovePointGenerator where
  minimum : ℤ
  maximum : ℤ
  t : ℝ
  step : ℝ

/-- From the constructor of LovePointGenerator: t starts at 0 and the step is
two pi divided by the requested point count n. -/
noncomputable def LovePointGenerator.ofConfig (minimum maximum : ℤ) (n : ℕ) :
    LovePointGenerator :=
  ⟨minimum, maximum, 0, 2 * Real.pi / n⟩

/-- The four uniform random draws a single generate call makes for the y
coordinate, passed in explicitly so that runs under different random sources
can be compared. -/
structure Jitter where
  r1 : ℝ
  r2 : ℝ
  r3 : ℝ
  r4 : ℝ

/-- The Python int conversion applied to a real: truncation toward zero. -/
noncomputable def realTrunc (x : ℝ) : ℤ :=
  if 0 ≤ x then ⌊x⌋ else ⌈x⌉

/-- From the generate method of LovePointGenerator: the captured parameter is
the current t, the state advances t by step, the x coordinate is maximum
minus the truncation of maximum times the cube of the sine of the captured
parameter, and the y coordinate mixes the four jitter draws with cosines of
multiples of the captured parameter. -/
noncomputable def LovePointGenerator.generate (g : LovePointGenerator) (j : Jitter) :
    Point × LovePointGenerator :=
  (⟨g.maximum - realTrunc ((g.maximum : ℝ) * Real.sin g.t ^ 3),
    g.maximum - realTrunc ((0.8 * j.r1 * (g.maximum : ℝ)) * Real.cos g.t
      - (0.6 * j.r2 * (g.maximum : ℝ)) * Real.cos (2 * g.t)
      - (0.2 * j.r3 * (g.maximum : ℝ)) * Real.cos (3 * g.t)
      - (0.1 * j.r4 * (g.maximum : ℝ)) * Real.cos (4 * g.t))⟩,
   ⟨g.minimum, g.maximum, g.t + g.step, g.step⟩)

/-- The generator state before the call with index k, under the jitter
stream js. -/
noncomputable def loveStates (g : LovePointGenerator) (js : ℕ → Jitter) :
    ℕ → LovePointGenerator
  | 0 => g
  | k + 1 => ((loveStates g js k).generate (js k)).2

/-- The point produced by the call with index k, under the jitter stream
js. -/
noncomputable def lovePoint (g : LovePointGenerator) (js : ℕ → Jitter) (k : ℕ) :
    Point :=
  ((loveStates g js k).generate (js k)).1

theorem loveStates_fields (g : LovePointGenerator) (js : ℕ → Jitter) (k : ℕ) :
    (loveStates g js k).minimum = g.minimum ∧
    (loveStates g js k).maximum = g.maximum ∧
    (loveStates g js k).step = g.step ∧
    (loveStates g js k).t = g.t + k * g.step := by
  induction k with
  | zero => simp [loveStates]
  | succ m ih =>
    obtain ⟨h1, h2, h3, h4⟩ := ih
    refine ⟨?_, ?_, ?_, ?_⟩ <;>
      simp only [loveStates, LovePointGenerator.generate, h1, h2, h3, h4]
    push_cast
    ring

/-- Claim C8: for a love-curve generator built with point count n at least 1
the base angle captured by successive generate calls starts at 0, increases
by exactly the step two pi over n on each call, is strictly increasing, and
does not depend on the jitter stream. -/
theorem loveGen_base_angle_arithmetic (minimum maximum : ℤ) (n : ℕ) (hn : 1 ≤ n)
    (js js2 : ℕ → Jitter) (k : ℕ) :
    (loveStates (LovePointGenerator.ofConfig minimum maximum n) js 0).t = 0 ∧
    (loveStates (LovePointGenerator.ofConfig minimum maximum n) js (k + 1)).t =
      (loveStates (LovePointGenerator.ofConfig minimum maximum n) js k).t +
        2 * Real.pi / n ∧
    (loveStates (LovePointGenerator.ofConfig minimum maximum n) js k).t <
      (loveStates (LovePointGenerator.ofConfig minimum maximum n) js (k + 1)).t ∧
    (loveStates (LovePointGenerator.ofConfig minimum maximum n) js k).t =
      (loveStates (LovePointGenerator.ofConfig minimum maximum n) js2 k).t := by
  have hf := loveStates_fields (LovePointGenerator.ofConfig minimum maximum n) js
  have hf2 := loveStates_fields (LovePointGenerator.ofConfig minimum maximum n) js2
  have hstep : (0 : ℝ) < 2 * Real.pi / n := by
    apply div_pos (by positivity)
    exact_mod_cast Nat.lt_of_lt_of_le Nat.zero_lt_one hn
  have ht : ∀ m : ℕ,
      (loveStates (LovePointGenerator.ofConfig minimum maximum n) js m).t =
        m * (2 * Real.pi / n) := by
    intro m
    rw [(hf m).2.2.2]
    show (0 : ℝ) + m * (2 * Real.pi / n) = m * (2 * Real.pi / n)
    ring
  have ht2 : (loveStates (LovePointGenerator.ofConfig minimum maximum n) js2 k).t =
      k * (2 * Real.pi / n) := by
    rw [(hf2 k).2.2.2]
    show (0 : ℝ) + k * (2 * Real.pi / n) = k * (2 * Real.pi / n)
    ring
  refine ⟨by rw [ht 0]; norm_num, ?_, ?_, by rw [ht k, ht2]⟩
  · rw [ht (k + 1), ht k]
    push_cast
    ring
  · rw [ht (k + 1), ht k]
    have : (k : ℝ) < (k : ℝ) + 1 := by norm_num
    calc (k : ℝ) * (2 * Real.pi / n) < ((k : ℝ) + 1) * (2 * Real.pi / n) := by
          exact mul_lt_mul_of_pos_right this hstep
      _ = ((k + 1 : ℕ) : ℝ) * (2 * Real.pi / n) := by push_cast; ring

/-- Claim C10: the x coordinate of the point produced by the call with index
k of the love-curve generator equals maximum minus the truncation of maximum
times the cube of the sine of k times the step, a function of the
configuration and the call index alone, and coincides across any two jitter
streams, so the random source influences only the y coordinate. -/
theorem loveGen_x_deterministic (minimum maximum : ℤ) (n : ℕ) (hn : 1 ≤ n)
    (js js2 : ℕ → Jitter) (k : ℕ) :
    (lovePoint (LovePointGenerator.ofConfig minimum maximum n) js k).x =
      maximum - realTrunc ((maximum : ℝ) *
        Real.sin ((k : ℝ) * (2 * Real.pi / n)) ^ 3) ∧
    (lovePoint (LovePointGenerator.ofConfig minimum maximum n) js k).x =
      (lovePoint (LovePointGenerator.ofConfig minimum maximum n) js2 k).x := by
  have key : ∀ js3 : ℕ → Jitter,
      (lovePoint (LovePointGenerator.ofConfig minimum maximum n) js3 k).x =
        maximum - realTrunc ((maximum : ℝ) *
          Real.sin ((k : ℝ) * (2 * Real.pi / n)) ^ 3) := by
    intro js3
    have hf := loveStates_fields (LovePointGenerator.ofConfig minimum maximum n) js3 k
    show (loveStates (LovePointGenerator.ofConfig minimum maximum n) js3 k).maximum -
        realTrunc (((loveStates (LovePointGenerator.ofConfig minimum maximum n) js3 k).maximum : ℝ) *
          Real.sin (loveStates (LovePointGenerator.ofConfig minimum maximum n) js3 k).t ^ 3) = _
    rw [hf.2.1, hf.2.2.2]
    show maximum - realTrunc ((maximum : ℝ) * Real.sin ((0 : ℝ) + k * (2 * Real.pi / n)) ^ 3) = _
    rw [zero_add]
  exact ⟨key js, by rw [key js, key js2]⟩


/-- Witness for claim C8 at point count 4, default bounds, call index 2, and
two distinct jitter streams. -/
theorem loveGen_base_angle_witness :
    (loveStates (LovePointGenerator.ofConfig 72 648 4)
      (fun _ => ⟨0, 0, 0, 0⟩) 0).t = 0 ∧
    (loveStates (LovePointGenerator.ofConfig 72 648 4)
        (fun _ => ⟨0, 0, 0, 0⟩) 3).t =
      (loveStates (LovePointGenerator.ofConfig 72 648 4)
        (fun _ => ⟨0, 0, 0, 0⟩) 2).t + 2 * Real.pi / ((4 : ℕ) : ℝ) ∧
    (loveStates (LovePointGenerator.ofConfig 72 648 4)
        (fun _ => ⟨0, 0, 0, 0⟩) 2).t <
      (loveStates (LovePointGenerator.ofConfig 72 648 4)
        (fun _ => ⟨0, 0, 0, 0⟩) 3).t ∧
    (loveStates (LovePointGenerator.ofConfig 72 648 4)
        (fun _ => ⟨0, 0, 0, 0⟩) 2).t =
      (loveStates (LovePointGenerator.ofConfig 72 648 4)
        (fun _ => ⟨1, 1, 1, 1⟩) 2).t :=
  loveGen_base_angle_arithmetic 72 648 4 (by norm_num)
    (fun _ => ⟨0, 0, 0, 0⟩) (fun _ => ⟨1, 1, 1, 1⟩) 2

/-- Witness for claim C10 at point count 4, default bounds, call index 2, and
two distinct jitter streams. -/
theorem loveGen_x_deterministic_witness :
    (lovePoint (LovePointGenerator.ofConfig 72 648 4)
        (fun _ => ⟨0, 0, 0, 0⟩) 2).x =
      648 - realTrunc (((648 : ℤ) : ℝ) *
        Real.sin (((2 : ℕ) : ℝ) * (2 * Real.pi / ((4 : ℕ) : ℝ))) ^ 3) ∧
    (lovePoint (LovePointGenerator.ofConfig 72 648 4)
        (fun _ => ⟨0, 0, 0, 0⟩) 2).x =
      (lovePoint (LovePointGenerator.ofConfig 72 648 4)
        (fun _ => ⟨1, 1, 1, 1⟩) 2).x :=
  loveGen_x_deterministic 72 648 4 (by norm_num)
    (fun _ => ⟨0, 0, 0, 0⟩) (fun _ => ⟨1, 1, 1, 1⟩) 2

/-- Modelled from the spec: the per segment compositing in generate_art calls
ImageChops.add from the PIL library, which is not part of this repository;
per the spec it is saturating per channel addition, each output channel being
the minimum of 255 and the sum of the accumulator and overlay channels. -/
def chopsAddChannel (a b : ℕ) : ℕ :=
  min 255 (a + b)

/-- Saturating addition applied to all three channels of a pixel. -/
def chopsAddPixel (p q : ℕ × ℕ × ℕ) : ℕ × ℕ × ℕ :=
  (chopsAddChannel p.1 q.1, chopsAddChannel p.2.1 q.2.1,
   chopsAddChannel p.2.2 q.2.2)

/-- Saturating addition applied pointwise to two images, an image being a map
from coordinates to pixels. -/
def chopsAdd (img overlay : ℤ → ℤ → ℕ × ℕ × ℕ) : ℤ → ℤ → ℕ × ℕ × ℕ :=
  fun x y => chopsAddPixel (img x y) (overlay x y)

/-- Claim C9: the compositing of an overlay onto the accumulator is
commutative in its two image arguments, every output channel is the minimum
of 255 and the channel sum and so never exceeds 255, and compositing channel
values 200 and 100 yields 255, not 300 and not the wrapped value 44. -/
theorem chopsAdd_saturating_comm :
    (∀ img overlay : ℤ → ℤ → ℕ × ℕ × ℕ, chopsAdd img overlay = chopsAdd overlay img) ∧
    (∀ a b : ℕ, chopsAddChannel a b = min 255 (a + b)) ∧
    (∀ a b : ℕ, chopsAddChannel a b ≤ 255) ∧
    chopsAddChannel 200 100 = 255 ∧
    chopsAddChannel 200 100 ≠ 300 ∧
    chopsAddChannel 200 100 ≠ 44 := by
  refine ⟨?_, fun a b => rfl, fun a b => min_le_left _ _, by decide, by decide, by decide⟩
  intro img overlay
  funext x y
  simp only [chopsAdd, chopsAddPixel, chopsAddChannel, Nat.add_comm]

end LineArt
